import Mathlib

/-!
Shallow embedding of `src/server.py` of github-gitlab-ci-sync: the
per-repository configuration, the status vocabulary translation in
`commit_status_set`, the two worker loops (`git_task`, `gitlab_task`),
the bootstrap functions (`init_git`, `init_statuses`), and the two
webhook dispatch handlers (`github`, `gitlab`).  Stateful parts are
embedded as explicit state passing over finite snapshots of the queues;
fallible calls (subprocess exits, HTTP posts) are driven by boolean
oracles and return `Except`.
-/

namespace GhGlSync

/-- The `github` sub-dictionary of one repository entry of the YAML
configuration: `repo` and `access_token` (src/server.py lines 27-28, 93-107). -/
structure GithubCfg where
  repo : String
  access_token : String
deriving DecidableEq, Repr

/-- The `gitlab` sub-dictionary of one repository entry of the YAML
configuration: `host`, `repo`, `access_token` and the optional
`job_descriptions` mapping (src/server.py lines 30-32, 133-144, 170-172). -/
structure GitlabCfg where
  host : String
  repo : String
  access_token : String
  job_descriptions : Option (List (String × String))
deriving DecidableEq, Repr

/-- One repository entry of `config['repos']` — the Repository Session:
local mirror `path` plus the github and gitlab sub-configurations. -/
structure Cfg where
  path : String
  github : GithubCfg
  gitlab : GitlabCfg
deriving DecidableEq, Repr

/-- `gitlab_url(repo_config)` (src/server.py lines 30-32). -/
def gitlab_url (cfg : Cfg) : String :=
  "https://oauth2:" ++ cfg.gitlab.access_token ++ "@" ++ cfg.gitlab.host
    ++ "/" ++ cfg.gitlab.repo

/-- `github_url(repo_config)` (src/server.py lines 27-28). -/
def github_url (cfg : Cfg) : String :=
  "https://github.com/" ++ cfg.github.repo

/-- The status translation inlined in `commit_status_set`
(src/server.py lines 160-168): the chain of `if`/`elif` string
comparisons; `none` is the early `return` of the `else` branch
(the event is dropped). -/
def map_status (status : String) : Option String :=
  if status = "success" then some "success"
  else if status = "pending" ∨ status = "created" ∨ status = "running" then
    some "pending"
  else if status = "failed" then some "failure"
  else none

/-- The description resolution in `commit_status_set`
(src/server.py lines 170-172): default `Gitlab <test>`, overridden by
`cfg['gitlab']['job_descriptions'].get(test, default)` when the
`job_descriptions` key is present. -/
def resolve_description (cfg : Cfg) (test : String) : String :=
  let default := "Gitlab " ++ test
  match cfg.gitlab.job_descriptions with
  | some m => (m.lookup test).getD default
  | none => default

/-- The argument record of one `github_commit_status_set` call
(src/server.py lines 119-126): the Commit Status Update posted upstream. -/
structure StatusUpdate where
  commit : String
  context : String
  state : String
  description : String
  url : String
deriving DecidableEq, Repr

/-- `commit_status_set(cfg, commit, test, status, url)`
(src/server.py lines 159-175) as the Commit Status Update it posts:
`none` when the raw status is unrecognized (the early return on line 168),
otherwise the update passed to `github_commit_status_set`, with context
`gitlab/<test>` and the resolved description. -/
def commit_status_set (cfg : Cfg) (commit test status url : String) :
    Option StatusUpdate :=
  (map_status status).map fun gh_status =>
    { commit := commit
      context := "gitlab/" ++ test
      state := gh_status
      description := resolve_description cfg test
      url := url }

/-- Webhook payload bodies are parsed JSON that the git worker never
inspects; the embedding keeps them opaque as strings. -/
abbrev Payload := String

/-- One item of the (single, module-level) `git_queue`
(src/server.py line 38): the triple `(repo_cfg, 'push', x)` enqueued by
the `github` handler (lines 227, 230). -/
structure GitItem where
  cfg : Cfg
  kind : String
  payload : Payload
deriving DecidableEq, Repr

/-- One entry of `event['builds']` of a gitlab Pipeline Hook payload
(src/server.py lines 197-200): job id, name and raw status. -/
structure Build where
  id : Nat
  name : String
  status : String
deriving DecidableEq, Repr

/-- The fields of a gitlab Pipeline Hook payload that
`gitlab_update_pipeline` reads (src/server.py lines 195-200):
`event['commit']['id']` and `event['builds']`. -/
structure PipelineEvent where
  commit_id : String
  builds : List Build
deriving DecidableEq, Repr

/-- One item of the (single, module-level) `gitlab_queue`
(src/server.py line 131): the triple `(repo_cfg, ev, x)` enqueued by the
`gitlab` handler (line 242). -/
structure GlItem where
  cfg : Cfg
  kind : String
  event : PipelineEvent
deriving DecidableEq, Repr

/-- The two module-level queues shared by all repositories
(src/server.py lines 38 and 131), as finite snapshots in arrival order. -/
structure ServerState where
  git_queue : List GitItem
  gitlab_queue : List GlItem
deriving DecidableEq, Repr

/-- `config['repos']`: the ordered mapping from repository name to its
configuration entry (src/server.py lines 80, 204, 222, 237). -/
structure Config where
  repos : List (String × Cfg)
deriving DecidableEq, Repr

/-- The `github` POST handler (src/server.py lines 220-233) on
already-parsed inputs: looking up an unknown repository name raises
(KeyError on line 222, modelled as `Except.error`); a `push` or
`pull_request` event enqueues `(repo_cfg, 'push', x)` on the git queue;
any other event kind only logs and writes no queue; the handler returns
the `OK` response. -/
def github_handler (config : Config) (repo ev : String) (x : Payload)
    (s : ServerState) : Except String (ServerState × String) :=
  match config.repos.lookup repo with
  | none => .error "KeyError"
  | some repo_cfg =>
    if ev = "push" then
      .ok ({ s with git_queue := s.git_queue ++ [⟨repo_cfg, "push", x⟩] }, "OK")
    else if ev = "pull_request" then
      .ok ({ s with git_queue := s.git_queue ++ [⟨repo_cfg, "push", x⟩] }, "OK")
    else
      .ok (s, "OK")

/-- The `gitlab` POST handler (src/server.py lines 235-246) on
already-parsed inputs: unknown repository name raises (line 237); a
`Pipeline Hook` event enqueues `(repo_cfg, ev, x)` on the gitlab queue;
any other event kind only logs and writes no queue. -/
def gitlab_handler (config : Config) (repo ev : String) (x : PipelineEvent)
    (s : ServerState) : Except String (ServerState × String) :=
  match config.repos.lookup repo with
  | none => .error "KeyError"
  | some repo_cfg =>
    if ev = "Pipeline Hook" then
      .ok ({ s with gitlab_queue := s.gitlab_queue ++ [⟨repo_cfg, ev, x⟩] }, "OK")
    else
      .ok (s, "OK")

/-- One subprocess invocation made through `run` from `git_run`
(src/server.py lines 41-53): argv with the `/usr/bin/git` prefix, run in
the working copy of the repository. -/
structure GitCall where
  cwd : Option String
  argv : List String
deriving DecidableEq, Repr

/-- `git_run(cfg, parts)` (src/server.py lines 52-53) as the subprocess
invocation it performs, in the working copy of the repository. -/
def git_run_call (cfg : Cfg) (parts : List String) : GitCall :=
  { cwd := some cfg.path, argv := "/usr/bin/git" :: parts }

/-- `git_pull_push(cfg)` (src/server.py lines 56-60) as the sequence of
git invocations it performs: remote update, show-ref, mirror push. -/
def git_pull_push_calls (cfg : Cfg) : List GitCall :=
  [git_run_call cfg ["remote", "update", "-p"],
   git_run_call cfg ["show-ref"],
   git_run_call cfg ["push", "--mirror", gitlab_url cfg]]

/-- The body of the `while True` loop of `git_task`
(src/server.py lines 83-85) for one dequeued item: the tuple is unpacked
as `(cfg, _, op)` and only `cfg` is used — `git_pull_push(cfg)`. -/
def git_process_item (it : GitItem) : List GitCall :=
  git_pull_push_calls it.cfg

/-- The drain loop of `git_task` (src/server.py lines 82-85) over a
finite queue snapshot, with a per-repository success oracle `ok` for the
subprocess calls of `git_pull_push` (a non-zero exit raises on line 50,
which terminates the task coroutine): the items whose processing
completed, in order, up to the first failure. -/
def git_task_processed (ok : Cfg → Bool) : List GitItem → List GitItem
  | [] => []
  | it :: rest =>
    if ok it.cfg then it :: git_task_processed ok rest else []

/-- The execution of `commit_status_set` (src/server.py lines 159-175)
with an HTTP oracle `ok` for the github post (lines 109-116 raise when
the response status is not 200/201): an unrecognized raw status returns
without posting; otherwise the update is posted and a failed post raises. -/
def run_commit_status_set (ok : StatusUpdate → Bool) (cfg : Cfg)
    (commit test status url : String) : Except String (List StatusUpdate) :=
  match commit_status_set cfg commit test status url with
  | none => .ok []
  | some u => if ok u then .ok [u] else .error "github API call failed"

/-- The job reference URL built by `gitlab_update_pipeline`
(src/server.py line 199). -/
def job_url (cfg : Cfg) (jid : Nat) : String :=
  "https://" ++ cfg.gitlab.host ++ "/" ++ cfg.gitlab.repo ++ "/-/jobs/"
    ++ toString jid

/-- `gitlab_update_pipeline(cfg, event)` (src/server.py lines 195-200)
with the HTTP oracle: one `commit_status_set` per build, sequentially,
stopping at the first raised post failure. -/
def run_update_pipeline (ok : StatusUpdate → Bool) (cfg : Cfg)
    (cid : String) : List Build → Except String (List StatusUpdate)
  | [] => .ok []
  | j :: rest =>
    match run_commit_status_set ok cfg cid j.name j.status (job_url cfg j.id) with
    | .error e => .error e
    | .ok us =>
      match run_update_pipeline ok cfg cid rest with
      | .error e => .error e
      | .ok vs => .ok (us ++ vs)

/-- The body of the `while True` loop of `gitlab_task`
(src/server.py lines 208-213) for one dequeued item: a `Pipeline Hook`
item is handed to `gitlab_update_pipeline`; any other kind raises
`Unknown event type`. -/
def gitlab_task_step (ok : StatusUpdate → Bool) (it : GlItem) :
    Except String (List StatusUpdate) :=
  if it.kind = "Pipeline Hook" then
    run_update_pipeline ok it.cfg it.event.commit_id it.event.builds
  else
    .error "Unknown event type"

/-- The drain loop of `gitlab_task` (src/server.py lines 207-213) over a
finite queue snapshot: the concatenated posted updates, or the first
raised error (which terminates the task coroutine). -/
def run_gitlab_task (ok : StatusUpdate → Bool) :
    List GlItem → Except String (List StatusUpdate)
  | [] => .ok []
  | it :: rest =>
    match gitlab_task_step ok it with
    | .error e => .error e
    | .ok us =>
      match run_gitlab_task ok rest with
      | .error e => .error e
      | .ok vs => .ok (us ++ vs)

/-- `init_git(cfg)` (src/server.py lines 64-76) as the sequence of
subprocess invocations of the bootstrap: bare mirror clone (run without a
working directory, which does not exist yet), the two fetch-refspec
config additions, then one `git_pull_push`. -/
def init_git_calls (cfg : Cfg) : List GitCall :=
  { cwd := none,
    argv := ["/usr/bin/git", "clone", "--bare", "--mirror", github_url cfg,
             cfg.path] } ::
  git_run_call cfg ["config", "--add", "remote.origin.fetch", "+refs/*:refs/*"] ::
  git_run_call cfg
    ["config", "--add", "remote.origin.fetch", "+refs/pull/*:refs/heads/pull/*"] ::
  git_pull_push_calls cfg

/-- One top-level action of `git_task` (src/server.py lines 79-85):
either one `init_git` of the bootstrap for-loop, or one
`git_queue.get()` of the drain loop. -/
inductive GitAction where
  | initRepo (cfg : Cfg)
  | dequeued (it : GitItem)
deriving DecidableEq, Repr

/-- Whether a `git_task` action is a dequeue of the drain loop. -/
def GitAction.isDequeue : GitAction → Bool
  | .initRepo _ => false
  | .dequeued _ => true

/-- The action sequence of `git_task` (src/server.py lines 79-85) over a
finite snapshot of the queue: the bootstrap for-loop runs `init_git` for
every entry of `config['repos']`, and only then does the `while True`
loop start dequeuing. -/
def git_task_actions (config : Config) (queue : List GitItem) : List GitAction :=
  (config.repos.map fun p => GitAction.initRepo p.2) ++ queue.map GitAction.dequeued

/-- One top-level action of `gitlab_task` (src/server.py lines 203-213):
either one `init_statuses` of the bootstrap for-loop, or one
`gitlab_queue.get()` of the drain loop. -/
inductive GlAction where
  | backfillRepo (cfg : Cfg)
  | dequeued (it : GlItem)
deriving DecidableEq, Repr

/-- Whether a `gitlab_task` action is a dequeue of the drain loop. -/
def GlAction.isDequeue : GlAction → Bool
  | .backfillRepo _ => false
  | .dequeued _ => true

/-- The action sequence of `gitlab_task` (src/server.py lines 203-213)
over a finite snapshot of the queue: the bootstrap for-loop runs
`init_statuses` for every entry of `config['repos']`, and only then does
the `while True` loop start dequeuing. -/
def gitlab_task_actions (config : Config) (queue : List GlItem) : List GlAction :=
  (config.repos.map fun p => GlAction.backfillRepo p.2) ++ queue.map GlAction.dequeued

/-- One job record as read by `init_statuses` (src/server.py
lines 190-192): `commit.id`, `name`, `status`, `web_url`. -/
structure Job where
  commit_id : String
  name : String
  status : String
  web_url : String
deriving DecidableEq, Repr

/-- One pipeline summary with its job list as held by the downstream
host. -/
structure Pipeline where
  id : Nat
  jobs : List Job
deriving DecidableEq, Repr

/-- The pipelines request of `init_statuses` (src/server.py
lines 180-185): keyset pagination over the pipelines ordered by
`updated_at` descending with `per_page` 5, modelled against the list of
the pipelines of the host in that order. -/
def fetch_pipelines (host : List Pipeline) : List Pipeline :=
  host.take 5

/-- The jobs request of `init_statuses` (src/server.py lines 188-189):
`per_page` 100 over the jobs of one pipeline. -/
def fetch_jobs (pl : Pipeline) : List Job :=
  pl.jobs.take 100

/-- `init_statuses(cfg)` (src/server.py lines 178-193) as the Commit
Status Updates it attempts: for each fetched pipeline, for each of its
jobs, the `commit_status_set` attempt (dropped when the raw status is
unrecognized). -/
def init_statuses_updates (cfg : Cfg) (host : List Pipeline) : List StatusUpdate :=
  (fetch_pipelines host).flatMap fun pl =>
    (fetch_jobs pl).filterMap fun j =>
      commit_status_set cfg j.commit_id j.name j.status j.web_url

/-- The bootstrap for-loop of `gitlab_task` (src/server.py
lines 204-205): `init_statuses` over every entry of `config['repos']`,
against the per-repository pipeline state `host` of the downstream. -/
def gitlab_backfill_updates (config : Config) (host : Cfg → List Pipeline) :
    List StatusUpdate :=
  config.repos.flatMap fun p => init_statuses_updates p.2 (host p.2)

/-- The Commit Status Updates attempted by the drain loop of
`gitlab_task` (src/server.py lines 207-213) over a queue snapshot of
Pipeline Hook items. -/
def gitlab_live_updates (queue : List GlItem) : List StatusUpdate :=
  queue.flatMap fun it =>
    if it.kind = "Pipeline Hook" then
      it.event.builds.filterMap fun j =>
        commit_status_set it.cfg it.event.commit_id j.name j.status
          (job_url it.cfg j.id)
    else []

/-- The full attempt sequence of `gitlab_task` (src/server.py
lines 203-213): the backfill attempts of the bootstrap for-loop (tagged
`true`), then the attempts of the drain loop (tagged `false`), in
program order. -/
def gitlab_task_attempts (config : Config) (host : Cfg → List Pipeline)
    (queue : List GlItem) : List (Bool × StatusUpdate) :=
  (gitlab_backfill_updates config host).map (fun u => (true, u)) ++
    (gitlab_live_updates queue).map (fun u => (false, u))

/-- Sample repository entry used by the concrete witnesses. -/
def cfgA : Cfg :=
  { path := "/repo-a"
    github := { repo := "owner/alpha", access_token := "gh-a" }
    gitlab := { host := "gitlab.example", repo := "grp/alpha",
                access_token := "gl-a", job_descriptions := none } }

/-- Second sample repository entry used by the concrete witnesses. -/
def cfgB : Cfg :=
  { path := "/repo-b"
    github := { repo := "owner/beta", access_token := "gh-b" }
    gitlab := { host := "gitlab.example", repo := "grp/beta",
                access_token := "gl-b", job_descriptions := none } }

/-- Sample repository entry with a job-description override mapping. -/
def cfgOverride : Cfg :=
  { path := "/repo-o"
    github := { repo := "owner/omega", access_token := "gh-o" }
    gitlab := { host := "gitlab.example", repo := "grp/omega",
                access_token := "gl-o",
                job_descriptions := some [("unit-tests", "Unit Tests")] } }

/-- Sample two-repository configuration used by the concrete witnesses. -/
def sampleConfig : Config :=
  { repos := [("alpha", cfgA), ("beta", cfgB)] }

end GhGlSync

namespace GhGlSync

/-- Any string outside the five recognized raw statuses falls through
every comparison of the `if`/`elif` chain to the final `else` branch. -/
theorem map_status_unrecognized (s : String)
    (h : s ∉ (["success", "pending", "created", "running", "failed"] : List String)) :
    map_status s = none := by
  simp only [List.mem_cons, List.not_mem_nil, or_false, not_or] at h
  obtain ⟨h1, h2, h3, h4, h5⟩ := h
  simp [map_status, h1, h2, h3, h4, h5]

/-- Position split of a trace built as mapped bootstrap entries followed
by mapped drain entries: an entry satisfies the drain predicate exactly
when its index lies past the whole bootstrap prefix. -/
theorem mapped_append_index {α β γ : Type} (p : γ → Bool) (f : α → γ) (g : β → γ)
    (hf : ∀ a, p (f a) = false) (hg : ∀ b, p (g b) = true)
    (xs : List α) (ys : List β) :
    ∀ (i : Nat) (c : γ),
      (xs.map f ++ ys.map g)[i]? = some c → (p c = true ↔ xs.length ≤ i) := by
  induction xs with
  | nil =>
    intro i c h
    simp only [List.map_nil, List.nil_append] at h
    obtain ⟨b, _, rfl⟩ := List.mem_map.mp (List.getElem?_mem h)
    simp [hg b]
  | cons x xs ih =>
    intro i c h
    cases i with
    | zero =>
      simp only [List.map_cons, List.cons_append, List.getElem?_cons_zero,
        Option.some.injEq] at h
      subst h
      simp [hf x]
    | succ i =>
      simp only [List.map_cons, List.cons_append, List.getElem?_cons_succ] at h
      simpa [Nat.succ_le_succ_iff] using ih i c h

/-- The only exception a `commit_status_set` execution can raise is the
failed github post of src/server.py lines 112-115. -/
theorem run_commit_status_set_error_msg (ok : StatusUpdate → Bool) (cfg : Cfg)
    (c t s u e : String)
    (h : run_commit_status_set ok cfg c t s u = .error e) :
    e = "github API call failed" := by
  unfold run_commit_status_set at h
  split at h
  · exact Except.noConfusion h
  · split at h
    · exact Except.noConfusion h
    · exact (Except.error.inj h).symm

/-- The only exception a `gitlab_update_pipeline` execution can raise is
a failed github post bubbling up from `commit_status_set`. -/
theorem run_update_pipeline_error_msg (ok : StatusUpdate → Bool) (cfg : Cfg)
    (cid : String) :
    ∀ (builds : List Build) (e : String),
      run_update_pipeline ok cfg cid builds = .error e →
      e = "github API call failed" := by
  intro builds
  induction builds with
  | nil => intro e h; exact Except.noConfusion h
  | cons j rest ih =>
    intro e h
    rw [run_update_pipeline] at h
    cases hstep : run_commit_status_set ok cfg cid j.name j.status (job_url cfg j.id) with
    | error e2 =>
      rw [hstep] at h
      exact (Except.error.inj h) ▸ run_commit_status_set_error_msg ok cfg cid j.name
        j.status (job_url cfg j.id) e2 hstep
    | ok us =>
      rw [hstep] at h
      cases hrest : run_update_pipeline ok cfg cid rest with
      | error e2 =>
        rw [hrest] at h
        exact (Except.error.inj h) ▸ ih e2 hrest
      | ok vs => rw [hrest] at h; exact Except.noConfusion h

/-- A pipeline event all of whose builds carry unrecognized raw statuses
posts nothing and raises nothing. -/
theorem run_update_pipeline_all_dropped (ok : StatusUpdate → Bool) (cfg : Cfg)
    (cid : String) :
    ∀ (builds : List Build),
      (∀ b ∈ builds, map_status b.status = none) →
      run_update_pipeline ok cfg cid builds = .ok [] := by
  intro builds
  induction builds with
  | nil => intro _; rfl
  | cons j rest ih =>
    intro h
    have hj : map_status j.status = none := h j (List.mem_cons_self j rest)
    have hstep : run_commit_status_set ok cfg cid j.name j.status (job_url cfg j.id)
        = .ok [] := by
      unfold run_commit_status_set commit_status_set
      rw [hj]
      rfl
    rw [run_update_pipeline, hstep, ih fun b hb => h b (List.mem_cons_of_mem j hb)]
    rfl

/-- C2. For every raw status outside {success, pending, created, running,
failed}, `commit_status_set` produces no Commit Status Update, returns
without raising whatever the HTTP oracle would answer, and `gitlab_task`
continues with the remaining queue items unchanged. -/
theorem C2_unrecognized_status_dropped :
    (∀ (ok : StatusUpdate → Bool) (cfg : Cfg) (c t s u : String),
        s ∉ (["success", "pending", "created", "running", "failed"] : List String) →
        commit_status_set cfg c t s u = none ∧
        run_commit_status_set ok cfg c t s u = .ok []) ∧
    (∀ (ok : StatusUpdate → Bool) (cfg : Cfg) (ev : PipelineEvent)
        (rest : List GlItem),
        (∀ b ∈ ev.builds, b.status ∉
          (["success", "pending", "created", "running", "failed"] : List String)) →
        run_gitlab_task ok (⟨cfg, "Pipeline Hook", ev⟩ :: rest) =
          run_gitlab_task ok rest) := by
  constructor
  · intro ok cfg c t s u hs
    have hm := map_status_unrecognized s hs
    have hset : commit_status_set cfg c t s u = none := by
      unfold commit_status_set; rw [hm]; rfl
    exact ⟨hset, by unfold run_commit_status_set; rw [hset]⟩
  · intro ok cfg ev rest h
    have hstep : gitlab_task_step ok ⟨cfg, "Pipeline Hook", ev⟩ = .ok [] := by
      unfold gitlab_task_step
      rw [if_pos rfl]
      exact run_update_pipeline_all_dropped ok cfg ev.commit_id ev.builds
        fun b hb => map_status_unrecognized b.status (h b hb)
    rw [run_gitlab_task, hstep]
    cases hrest : run_gitlab_task ok rest with
    | error e => rfl
    | ok vs => simp

/-- Witness for C2 at a concrete input: the unlisted raw status
`canceled` yields no update and no exception. -/
theorem C2_unrecognized_status_dropped_witness :
    commit_status_set cfgA "c1" "job" "canceled" "u1" = none ∧
    run_commit_status_set (fun _ => true) cfgA "c1" "job" "canceled" "u1" = .ok [] :=
  C2_unrecognized_status_dropped.1 (fun _ => true) cfgA "c1" "job" "canceled" "u1"
    (by decide)

/-- C3. Bootstrap before drain: in the action sequence of `git_task` an
action is a dequeue of the drain loop exactly when its position lies
after the `init_git` bootstrap of every configured repository, and in
the action sequence of `gitlab_task` an action is a dequeue exactly when
its position lies after the `init_statuses` backfill of every
configured repository. -/
theorem C3_bootstrap_before_drain :
    (∀ (config : Config) (queue : List GitItem) (i : Nat) (a : GitAction),
        (git_task_actions config queue)[i]? = some a →
        (a.isDequeue = true ↔ config.repos.length ≤ i)) ∧
    (∀ (config : Config) (queue : List GlItem) (i : Nat) (a : GlAction),
        (gitlab_task_actions config queue)[i]? = some a →
        (a.isDequeue = true ↔ config.repos.length ≤ i)) := by
  constructor
  · intro config queue i a h
    unfold git_task_actions at h
    simpa using mapped_append_index GitAction.isDequeue
      (fun p => GitAction.initRepo p.2) GitAction.dequeued
      (fun _ => rfl) (fun _ => rfl) config.repos queue i a h
  · intro config queue i a h
    unfold gitlab_task_actions at h
    simpa using mapped_append_index GlAction.isDequeue
      (fun p => GlAction.backfillRepo p.2) GlAction.dequeued
      (fun _ => rfl) (fun _ => rfl) config.repos queue i a h

/-- Witness for C3 at a concrete input: with the two-repository sample
configuration and one queued item, the action at position 2 is the
dequeue, and 2 is indeed past the two bootstrap actions. -/
theorem C3_bootstrap_before_drain_witness :
    (GitAction.dequeued ⟨cfgA, "push", "p1"⟩).isDequeue = true ↔
      sampleConfig.repos.length ≤ 2 :=
  C3_bootstrap_before_drain.1 sampleConfig [⟨cfgA, "push", "p1"⟩] 2
    (GitAction.dequeued ⟨cfgA, "push", "p1"⟩) (by decide)

/-- C1. The status mapping of `commit_status_set` is total and
deterministic: success maps to success; pending, created and running map
to pending; failed maps to failure; every other string (case-sensitive
exact comparison) yields no mapped status, and then `commit_status_set`
produces no update; when a status is produced, its state is exactly the
mapped value. -/
theorem C1_status_mapping :
    map_status "success" = some "success" ∧
    map_status "pending" = some "pending" ∧
    map_status "created" = some "pending" ∧
    map_status "running" = some "pending" ∧
    map_status "failed" = some "failure" ∧
    (∀ s : String,
      s ∉ (["success", "pending", "created", "running", "failed"] : List String) →
      map_status s = none) ∧
    (∀ (cfg : Cfg) (c t s u : String),
      (commit_status_set cfg c t s u).map StatusUpdate.state = map_status s) := by
  refine ⟨rfl, rfl, rfl, rfl, rfl, ?_, ?_⟩
  · intro s hs
    simp only [List.mem_cons, List.mem_singleton, not_or] at hs
    obtain ⟨h1, h2, h3, h4, h5⟩ := hs
    simp [map_status, h1, h2, h3, h4, h5]
  · intro cfg c t s u
    unfold commit_status_set
    cases map_status s <;> rfl

/-- Witness for C1 at concrete inputs: the unlisted status `Success`
(showing case sensitivity) is dropped, and `commit_status_set` then
produces no update state. -/
theorem C1_status_mapping_witness :
    map_status "Success" = none ∧
    (commit_status_set
      { path := "/repo"
        github := { repo := "o/r", access_token := "tg" }
        gitlab := { host := "gl.example", repo := "g/r", access_token := "tl",
                    job_descriptions := none } }
      "c0ffee" "unit-tests" "Success" "http://x").map StatusUpdate.state
      = map_status "Success" := by
  refine ⟨C1_status_mapping.2.2.2.2.2.1 "Success" (by decide), ?_⟩
  exact C1_status_mapping.2.2.2.2.2.2 _ "c0ffee" "unit-tests" "Success" "http://x"

/-- C4. Counterexample to per-repository queues with failure isolation:
the `git_queue` of src/server.py line 38 is one module-level queue shared
by all repositories — dispatching a push for repository alpha and then
one for repository beta appends both items to that single queue — and
with a permanent git failure for repository alpha (the oracle answers
false exactly on `cfgA`), the single `git_task` drain loop dies on the
alpha item and the queued beta item is never processed. -/
theorem C4_counterexample :
    cfgA ≠ cfgB ∧
    (github_handler sampleConfig "alpha" "push" "p1" ⟨[], []⟩ >>= fun r1 =>
        github_handler sampleConfig "beta" "push" "p2" r1.1) =
      .ok (⟨[⟨cfgA, "push", "p1"⟩, ⟨cfgB, "push", "p2"⟩], []⟩, "OK") ∧
    git_task_processed (fun c => decide (c ≠ cfgA))
      [⟨cfgA, "push", "p1"⟩, ⟨cfgB, "push", "p2"⟩] = [] := by
  refine ⟨by decide, rfl, by decide⟩

/-- C4 amended. Both queues are global and shared by every configured
repository rather than per-repository: dispatch for any repository
appends to the same single git queue (and the same single gitlab queue),
each drained by one worker loop for all repositories; the loop halts at
the first failing item, so a permanent I/O failure while processing the
work of repository A prevents the later-queued mirror and status work of
repository B from being processed. -/
theorem C4_shared_queue_halt :
    (∀ (config : Config) (repo : String) (c : Cfg) (x : Payload) (s : ServerState),
        config.repos.lookup repo = some c →
        github_handler config repo "push" x s =
          .ok ({ s with git_queue := s.git_queue ++ [⟨c, "push", x⟩] }, "OK")) ∧
    (∀ (config : Config) (repo : String) (c : Cfg) (x : PipelineEvent)
        (s : ServerState),
        config.repos.lookup repo = some c →
        gitlab_handler config repo "Pipeline Hook" x s =
          .ok ({ s with gitlab_queue :=
                  s.gitlab_queue ++ [⟨c, "Pipeline Hook", x⟩] }, "OK")) ∧
    (∀ (ok : Cfg → Bool) (a : GitItem) (rest : List GitItem),
        ok a.cfg = false → git_task_processed ok (a :: rest) = []) ∧
    (∀ (ok : StatusUpdate → Bool) (a : GlItem) (rest : List GlItem) (e : String),
        gitlab_task_step ok a = .error e →
        run_gitlab_task ok (a :: rest) = .error e) := by
  refine ⟨?_, ?_, ?_, ?_⟩
  · intro config repo c x s h
    unfold github_handler
    rw [h]
    rfl
  · intro config repo c x s h
    unfold gitlab_handler
    rw [h]
    rfl
  · intro ok a rest h
    unfold git_task_processed
    rw [h]
    rfl
  · intro ok a rest e h
    rw [run_gitlab_task, h]

/-- Witness for the amended C4 at a concrete input: a permanent failure
for repository beta at the head of the shared queue leaves the
later-queued alpha item unprocessed. -/
theorem C4_shared_queue_halt_witness :
    git_task_processed (fun c => decide (c ≠ cfgB))
      [⟨cfgB, "push", "q1"⟩, ⟨cfgA, "push", "q2"⟩] = [] :=
  C4_shared_queue_halt.2.2.1 (fun c => decide (c ≠ cfgB))
    ⟨cfgB, "push", "q1"⟩ [⟨cfgA, "push", "q2"⟩] (by decide)

/-- C5. Dispatch routing: a `pull_request` event is dispatched exactly
like a `push` event; for a configured repository both enqueue one Mirror
Task on the git queue and leave the gitlab queue unchanged; a
`Pipeline Hook` event enqueues one Status Event on the gitlab queue and
leaves the git queue unchanged; every other event kind on either
endpoint writes to no queue and still answers OK. -/
theorem C5_dispatch_routing :
    (∀ (config : Config) (repo : String) (x : Payload) (s : ServerState),
        github_handler config repo "pull_request" x s =
          github_handler config repo "push" x s) ∧
    (∀ (config : Config) (repo : String) (c : Cfg) (x : Payload) (s : ServerState),
        config.repos.lookup repo = some c →
        github_handler config repo "push" x s =
          .ok ({ s with git_queue := s.git_queue ++ [⟨c, "push", x⟩] }, "OK")) ∧
    (∀ (config : Config) (repo : String) (c : Cfg) (x : PipelineEvent)
        (s : ServerState),
        config.repos.lookup repo = some c →
        gitlab_handler config repo "Pipeline Hook" x s =
          .ok ({ s with gitlab_queue :=
                  s.gitlab_queue ++ [⟨c, "Pipeline Hook", x⟩] }, "OK")) ∧
    (∀ (config : Config) (repo ev : String) (c : Cfg) (x : Payload)
        (s : ServerState),
        config.repos.lookup repo = some c →
        ev ≠ "push" → ev ≠ "pull_request" →
        github_handler config repo ev x s = .ok (s, "OK")) ∧
    (∀ (config : Config) (repo ev : String) (c : Cfg) (x : PipelineEvent)
        (s : ServerState),
        config.repos.lookup repo = some c →
        ev ≠ "Pipeline Hook" →
        gitlab_handler config repo ev x s = .ok (s, "OK")) := by
  refine ⟨?_, ?_, ?_, ?_, ?_⟩
  · intro config repo x s
    unfold github_handler
    cases config.repos.lookup repo with
    | none => rfl
    | some c => rfl
  · intro config repo c x s h
    unfold github_handler
    rw [h]
    rfl
  · intro config repo c x s h
    unfold gitlab_handler
    rw [h]
    rfl
  · intro config repo ev c x s h h1 h2
    unfold github_handler
    rw [h]
    simp only [if_neg h1, if_neg h2]
  · intro config repo ev c x s h h1
    unfold gitlab_handler
    rw [h]
    simp only [if_neg h1]

/-- Witness for C5 at concrete inputs: on the sample configuration a
`pull_request` for alpha equals a `push` for alpha, and the `push`
enqueues exactly one Mirror Task on the (empty) git queue. -/
theorem C5_dispatch_routing_witness :
    github_handler sampleConfig "alpha" "pull_request" "pl" ⟨[], []⟩ =
      github_handler sampleConfig "alpha" "push" "pl" ⟨[], []⟩ ∧
    github_handler sampleConfig "alpha" "push" "pl" ⟨[], []⟩ =
      .ok (⟨[⟨cfgA, "push", "pl"⟩], []⟩, "OK") := by
  refine ⟨C5_dispatch_routing.1 sampleConfig "alpha" "pl" ⟨[], []⟩, ?_⟩
  have h := C5_dispatch_routing.2.1 sampleConfig "alpha" cfgA "pl" ⟨[], []⟩
    (by decide)
  simpa using h

/-- C6. The dispatch handlers propagate an error to the caller exactly
when the repository identifier is not in the configuration; for a
configured repository they never fail, whatever the event kind. -/
theorem C6_error_iff_unknown_repo :
    ∀ (config : Config) (repo ev : String) (x : Payload) (pe : PipelineEvent)
      (s : ServerState),
      ((∃ e, github_handler config repo ev x s = .error e) ↔
        config.repos.lookup repo = none) ∧
      ((∃ e, gitlab_handler config repo ev pe s = .error e) ↔
        config.repos.lookup repo = none) := by
  intro config repo ev x pe s
  constructor
  · unfold github_handler
    cases h : config.repos.lookup repo with
    | none => simp
    | some c =>
      simp only [reduceCtorEq, iff_false, not_exists]
      intro e
      split_ifs <;> simp
  · unfold gitlab_handler
    cases h : config.repos.lookup repo with
    | none => simp
    | some c =>
      simp only [reduceCtorEq, iff_false, not_exists]
      intro e
      split_ifs <;> simp

/-- C7. Bootstrap backfill: `init_statuses` issues at most one Commit
Status Update attempt per fetched job; when each of the at most 5
fetched pipelines has 3 jobs the attempts number at most 15; and in the
attempt sequence of `gitlab_task` every backfill attempt (tagged true)
precedes every live-queue attempt (tagged false). -/
theorem C7_backfill_bounded_and_first :
    (∀ (cfg : Cfg) (host : List Pipeline),
        (init_statuses_updates cfg host).length ≤
          ((fetch_pipelines host).map fun pl => (fetch_jobs pl).length).sum) ∧
    (∀ (cfg : Cfg) (host : List Pipeline),
        (∀ pl ∈ fetch_pipelines host, pl.jobs.length = 3) →
        (init_statuses_updates cfg host).length ≤ 15) ∧
    (∀ (config : Config) (host : Cfg → List Pipeline) (queue : List GlItem)
        (i j : Nat) (u v : StatusUpdate),
        (gitlab_task_attempts config host queue)[i]? = some (false, u) →
        (gitlab_task_attempts config host queue)[j]? = some (true, v) →
        j < i) := by
  have key : ∀ (cfg : Cfg) (host : List Pipeline),
      (init_statuses_updates cfg host).length ≤
        ((fetch_pipelines host).map fun pl => (fetch_jobs pl).length).sum := by
    intro cfg host
    unfold init_statuses_updates
    rw [List.length_flatMap]
    apply List.sum_le_sum
    intro pl _
    simp only [Function.comp_apply]
    exact List.length_filterMap_le _ _
  refine ⟨key, ?_, ?_⟩
  · intro cfg host h3
    refine (key cfg host).trans ?_
    have hjobs : ∀ pl ∈ fetch_pipelines host, (fetch_jobs pl).length = 3 := by
      intro pl hpl
      unfold fetch_jobs
      rw [List.length_take, h3 pl hpl]
      rfl
    have hlen : (fetch_pipelines host).length ≤ 5 := by
      unfold fetch_pipelines
      rw [List.length_take]
      exact inf_le_left
    have hsum : ((fetch_pipelines host).map fun pl => (fetch_jobs pl).length).sum ≤
        ((fetch_pipelines host).map fun pl => (fetch_jobs pl).length).length • 3 := by
      apply List.sum_le_card_nsmul
      intro x hx
      obtain ⟨pl, hpl, rfl⟩ := List.mem_map.mp hx
      rw [hjobs pl hpl]
    refine hsum.trans ?_
    rw [List.length_map, smul_eq_mul]
    omega
  · intro config host queue i j u v hi hj
    unfold gitlab_task_attempts at hi hj
    have hI := mapped_append_index (fun c : Bool × StatusUpdate => !c.1)
      (fun u => (true, u)) (fun u => (false, u)) (fun _ => rfl) (fun _ => rfl)
      (gitlab_backfill_updates config host) (gitlab_live_updates queue)
      i (false, u) hi
    have hJ := mapped_append_index (fun c : Bool × StatusUpdate => !c.1)
      (fun u => (true, u)) (fun u => (false, u)) (fun _ => rfl) (fun _ => rfl)
      (gitlab_backfill_updates config host) (gitlab_live_updates queue)
      j (true, v) hj
    have h1 : (gitlab_backfill_updates config host).length ≤ i := hI.mp rfl
    have h2 : ¬(gitlab_backfill_updates config host).length ≤ j := by
      intro hle
      simpa using hJ.mpr hle
    omega

/-- Witness for C7 at a concrete input: one fetched pipeline with three
jobs, one of them with an unrecognized status, yields at most 15
backfill attempts. -/
theorem C7_backfill_bounded_and_first_witness :
    (init_statuses_updates cfgA
      [⟨1, [⟨"c1", "j1", "success", "u1"⟩, ⟨"c1", "j2", "bogus", "u2"⟩,
            ⟨"c1", "j3", "failed", "u3"⟩]⟩]).length ≤ 15 :=
  C7_backfill_bounded_and_first.2.1 cfgA
    [⟨1, [⟨"c1", "j1", "success", "u1"⟩, ⟨"c1", "j2", "bogus", "u2"⟩,
          ⟨"c1", "j3", "failed", "u3"⟩]⟩] (by decide)

/-- C8. Description resolution: the override value is used when a
configured `job_descriptions` mapping contains the job name; otherwise
the synthesized `Gitlab <job-name>` default is used; on the repository
with override mapping unit-tests to Unit Tests, a running unit-tests job
yields a pending update described Unit Tests. -/
theorem C8_description_resolution :
    (∀ (cfg : Cfg) (m : List (String × String)) (t d : String),
        cfg.gitlab.job_descriptions = some m → m.lookup t = some d →
        resolve_description cfg t = d) ∧
    (∀ (cfg : Cfg) (t : String),
        cfg.gitlab.job_descriptions = none →
        resolve_description cfg t = "Gitlab " ++ t) ∧
    (∀ (cfg : Cfg) (m : List (String × String)) (t : String),
        cfg.gitlab.job_descriptions = some m → m.lookup t = none →
        resolve_description cfg t = "Gitlab " ++ t) ∧
    commit_status_set cfgOverride "abc123" "unit-tests" "running" "http://u" =
      some { commit := "abc123", context := "gitlab/unit-tests",
             state := "pending", description := "Unit Tests", url := "http://u" } := by
  refine ⟨?_, ?_, ?_, by decide⟩
  · intro cfg m t d hm hl
    unfold resolve_description
    rw [hm]
    simp [hl]
  · intro cfg t hm
    unfold resolve_description
    rw [hm]
  · intro cfg m t hm hl
    unfold resolve_description
    rw [hm]
    simp [hl]

/-- Witness for C8 at a concrete input: the override repository maps the
job unit-tests to the description Unit Tests. -/
theorem C8_description_resolution_witness :
    resolve_description cfgOverride "unit-tests" = "Unit Tests" :=
  C8_description_resolution.1 cfgOverride [("unit-tests", "Unit Tests")]
    "unit-tests" "Unit Tests" rfl rfl

/-- C9. The `gitlab_task` drain loop raises `Unknown event type` on any
dequeued item whose kind is not Pipeline Hook; when every queued item
has kind Pipeline Hook (as holds for every item the `gitlab` handler
ever enqueues) that error never occurs. -/
theorem C9_unknown_event_kind_fatal :
    (∀ (ok : StatusUpdate → Bool) (it : GlItem) (rest : List GlItem),
        it.kind ≠ "Pipeline Hook" →
        run_gitlab_task ok (it :: rest) = .error "Unknown event type") ∧
    (∀ (ok : StatusUpdate → Bool) (queue : List GlItem),
        (∀ it ∈ queue, it.kind = "Pipeline Hook") →
        run_gitlab_task ok queue ≠ .error "Unknown event type") ∧
    (∀ (config : Config) (repo ev : String) (x : PipelineEvent)
        (s s2 : ServerState) (r : String),
        gitlab_handler config repo ev x s = .ok (s2, r) →
        ∀ it ∈ s2.gitlab_queue,
          it ∈ s.gitlab_queue ∨ it.kind = "Pipeline Hook") := by
  refine ⟨?_, ?_, ?_⟩
  · intro ok it rest hk
    have hstep : gitlab_task_step ok it = .error "Unknown event type" := by
      unfold gitlab_task_step
      rw [if_neg hk]
    rw [run_gitlab_task, hstep]
  · intro ok queue
    induction queue with
    | nil => intro _ h; simp [run_gitlab_task] at h
    | cons it rest ih =>
      intro hall h
      rw [run_gitlab_task] at h
      have hk : it.kind = "Pipeline Hook" := hall it (List.mem_cons_self it rest)
      have hstep : gitlab_task_step ok it =
          run_update_pipeline ok it.cfg it.event.commit_id it.event.builds := by
        unfold gitlab_task_step
        rw [if_pos hk]
      rw [hstep] at h
      cases hup : run_update_pipeline ok it.cfg it.event.commit_id it.event.builds with
      | error e =>
        rw [hup] at h
        have := run_update_pipeline_error_msg ok it.cfg it.event.commit_id
          it.event.builds e hup
        rw [this] at h
        exact absurd (Except.error.inj h) (by decide)
      | ok us =>
        rw [hup] at h
        cases hrest : run_gitlab_task ok rest with
        | error e =>
          rw [hrest] at h
          have he : e = "Unknown event type" := Except.error.inj h
          exact ih (fun a ha => hall a (List.mem_cons_of_mem it ha)) (he ▸ hrest)
        | ok vs =>
          rw [hrest] at h
          exact Except.noConfusion h
  · intro config repo ev x s s2 r h it hit
    unfold gitlab_handler at h
    split at h
    · exact Except.noConfusion h
    · split at h
      · rename_i c hrepo hev
        have hstate : ({ s with gitlab_queue := s.gitlab_queue ++ [⟨c, ev, x⟩] }
            : ServerState) = s2 := (Prod.mk.inj (Except.ok.inj h)).1
        have hq : s2.gitlab_queue = s.gitlab_queue ++ [⟨c, ev, x⟩] := by
          rw [← hstate]
        rw [hq] at hit
        rcases List.mem_append.mp hit with hmem | hmem
        · exact Or.inl hmem
        · right
          rw [List.mem_singleton.mp hmem]
          exact hev
      · have hstate : s = s2 := (Prod.mk.inj (Except.ok.inj h)).1
        rw [← hstate] at hit
        exact Or.inl hit

/-- Witness for C9 at a concrete input: a dequeued item of kind
Push Hook makes the drain loop raise Unknown event type. -/
theorem C9_unknown_event_kind_fatal_witness :
    run_gitlab_task (fun _ => true) [⟨cfgA, "Push Hook", ⟨"c9", []⟩⟩] =
      .error "Unknown event type" :=
  C9_unknown_event_kind_fatal.1 (fun _ => true) ⟨cfgA, "Push Hook", ⟨"c9", []⟩⟩ []
    (by decide)

/-- C10. Mirror-task payload noninterference: the git operations the
drain loop of `git_task` performs for a dequeued item depend only on the
Repository Session carried by the item, never on its event kind or
webhook payload. -/
theorem C10_mirror_noninterference :
    ∀ (a b : GitItem), a.cfg = b.cfg → git_process_item a = git_process_item b := by
  intro a b h
  unfold git_process_item
  rw [h]

/-- Witness for C10 at concrete inputs: two queue items for the same
repository with different kinds and different payloads produce the same
git invocation sequence. -/
theorem C10_mirror_noninterference_witness :
    git_process_item ⟨cfgA, "push", "payload-one"⟩ =
      git_process_item ⟨cfgA, "pull_request", "payload-two"⟩ :=
  C10_mirror_noninterference ⟨cfgA, "push", "payload-one"⟩
    ⟨cfgA, "pull_request", "payload-two"⟩ rfl

end GhGlSync
